import Mathlib

set_option autoImplicit false

/-!
Shallow embedding of the conversational DSPy service
(`app/models.py`, `app/storage.py`, `app/dspy_config.py`, `app/main.py`).

Modelling conventions:
* `datetime.utcnow()` timestamps are abstract clock values (`Nat`) supplied by
  the caller at each message construction.
* `uuid.uuid4()` is an external generator; the generated identifier is passed
  in as an argument (`freshId`).  Uniqueness of generated ids is an external
  assumption and appears as a hypothesis where a claim needs it.
* The Python `dict` `_conversations` is an association list; `dict[k] = v`
  (which overwrites any existing binding) is `dictSet`.
* The DSPy/LM call is an opaque external collaborator of type
  `String → String → Except String String`: `Except.error e` models the call
  raising an exception whose `str` is `e`.
* Python objects are aliased: `storage.add_message(conversation.id, ...)`
  mutates the very object the route handler holds in `conversation`.  The
  pure embedding models this by re-reading the conversation from the updated
  store after each append; in every state reachable through the storage API
  the two coincide.
-/

namespace DspyChat

/-- `Message` from `app/models.py`: role, content and creation timestamp. -/
structure Message where
  role : String
  content : String
  timestamp : Nat
  deriving Repr, DecidableEq

/-- `Conversation` from `app/models.py`: a generated id and the ordered
message list. -/
structure Conversation where
  id : String
  messages : List Message
  deriving Repr, DecidableEq

/-- `Conversation.add_message`: constructs a `Message` (timestamped `now`) and
appends it to the conversation, returning the created message and the updated
conversation (the Python method mutates `self` in place). -/
def Conversation.add_message (c : Conversation) (role content : String) (now : Nat) :
    Message × Conversation :=
  let message : Message := ⟨role, content, now⟩
  (message, ⟨c.id, c.messages ++ [message]⟩)

/-- `ChatRequest` from `app/models.py`. -/
structure ChatRequest where
  conversation_id : Option String
  message : String
  deriving Repr, DecidableEq

/-- The in-memory store of `app/storage.py`: the Python dict
`_conversations` as an association list from conversation id to conversation. -/
structure ConversationStorage where
  conversations : List (String × Conversation)
  deriving Repr, DecidableEq

/-- Python `d[k] = v`: drop any existing binding of `k`, add the new one. -/
def dictSet (l : List (String × Conversation)) (k : String) (v : Conversation) :
    List (String × Conversation) :=
  (l.filter (fun p => p.1 != k)) ++ [(k, v)]

/-- `ConversationStorage.get_conversation`: `self._conversations.get(id)`. -/
def ConversationStorage.get_conversation (s : ConversationStorage)
    (conversation_id : String) : Option Conversation :=
  (s.conversations.find? (fun p => p.1 == conversation_id)).map Prod.snd

/-- `ConversationStorage.create_conversation`: builds a `Conversation()` whose
id is the externally generated `freshId` and empty message list, registers it
under its id, and returns it together with the updated store. -/
def ConversationStorage.create_conversation (s : ConversationStorage)
    (freshId : String) : Conversation × ConversationStorage :=
  let conversation : Conversation := ⟨freshId, []⟩
  (conversation, ⟨dictSet s.conversations freshId conversation⟩)

/-- `ConversationStorage.add_message`: look the conversation up; when present,
append via `Conversation.add_message` (in-place in Python, so the store now
holds the extended conversation) and return the created message; when absent,
return `none` and leave the store unchanged. -/
def ConversationStorage.add_message (s : ConversationStorage)
    (conversation_id role content : String) (now : Nat) :
    Option Message × ConversationStorage :=
  match s.get_conversation conversation_id with
  | some conversation =>
      let mc := conversation.add_message role content now
      (some mc.1, ⟨dictSet s.conversations conversation_id mc.2⟩)
  | none => (none, s)

/-- `ConversationStorage.delete_conversation`: `if id in dict: del dict[id]`. -/
def ConversationStorage.delete_conversation (s : ConversationStorage)
    (conversation_id : String) : Bool × ConversationStorage :=
  if s.conversations.any (fun p => p.1 == conversation_id) then
    (true, ⟨s.conversations.filter (fun p => p.1 != conversation_id)⟩)
  else
    (false, s)

/-- `create_context_from_messages` from `app/dspy_config.py`: build the list of
`"<role>: <content>"` lines by a loop over all messages and join with
newlines. -/
def create_context_from_messages (messages : List Message) : String :=
  let context_parts :=
    messages.foldl (fun acc msg => acc ++ [msg.role ++ ": " ++ msg.content])
      ([] : List String)
  String.intercalate "\n" context_parts

/-- The external reasoning call (`dspy.asyncify(ConversationalCoT())` behind
`DSPyManager.process_message`): context and question in, either an answer or a
raised exception (its `str`) out. -/
def AskFn : Type :=
  String → String → Except String String

/-- `DSPyManager.process_message`: build the full context from all messages,
run the reasoning call, and on any exception return the apology string
`f"I apologize, but I encountered an error: {str(e)}"` instead of
propagating. -/
def process_message (ask : AskFn) (messages : List Message)
    (current_message : String) : String :=
  let full_context := create_context_from_messages messages
  match ask full_context current_message with
  | Except.ok result => result
  | Except.error e => "I apologize, but I encountered an error: " ++ e

/-- The success payload of `POST /chat` in `app/main.py`
(`status: success` is the `Except.ok` constructor of the route's result). -/
structure TurnResult where
  conversation_id : String
  response : String
  history : List Message
  deriving Repr, DecidableEq

/-- The conversation-resolution step of the `chat` route:
`if request.conversation_id:` is a Python truthiness test, so both `None`
and the empty string take the create branch; a truthy (non-empty) id is
looked up and its absence is the 404 path (`none` here). -/
def resolve_conversation (s : ConversationStorage) (req : ChatRequest)
    (freshId : String) : Option (Conversation × ConversationStorage) :=
  match req.conversation_id with
  | some cid =>
      if cid.isEmpty then some (s.create_conversation freshId)
      else
        match s.get_conversation cid with
        | none => none
        | some conversation => some (conversation, s)
  | none => some (s.create_conversation freshId)

/-- The `POST /chat` route of `app/main.py`: resolve or create the
conversation, append the user message, process through DSPy with the
conversation's (now extended, by aliasing) message list, append the assistant
message, and return the turn payload together with the store after the turn.
`Except.error 404` is the `HTTPException(status_code=404)` path. -/
def chat (ask : AskFn) (s : ConversationStorage) (req : ChatRequest)
    (freshId : String) (t1 t2 : Nat) :
    Except Nat TurnResult × ConversationStorage :=
  match resolve_conversation s req freshId with
  | none => (Except.error 404, s)
  | some cs =>
      let conversation := cs.1
      let s1 := cs.2
      let s2 := (s1.add_message conversation.id "user" req.message t1).2
      let conversation2 := (s2.get_conversation conversation.id).getD conversation
      let response := process_message ask conversation2.messages req.message
      let s3 := (s2.add_message conversation.id "assistant" response t2).2
      let conversation3 := (s3.get_conversation conversation.id).getD conversation2
      (Except.ok ⟨conversation.id, response, conversation3.messages⟩, s3)

/-- The credential check in `DSPyManager.__init__`:
`if not os.getenv("OPENAI_API_KEY")`.  Python truthiness of `os.getenv`:
`None` (variable absent) and the empty string are both falsy. -/
def getenv_truthy : Option String → Bool
  | none => false
  | some v => !v.isEmpty

/-- `DSPyManager.__init__` with the environment as input: raises `ValueError`
(the error message below) when the key check fails.  The subsequent
`dspy.LM` construction is the opaque external collaborator and is modelled as
succeeding. -/
def dspy_manager_check (env : String → Option String) : Except String Unit :=
  if getenv_truthy (env "OPENAI_API_KEY") then Except.ok ()
  else Except.error "OPENAI_API_KEY environment variable is not set"

/-- Module initialization of `app/main.py`: construct the (empty) storage and
the DSPy manager; any failure is re-raised, aborting startup before any
request is served. -/
def init_services (env : String → Option String) :
    Except String ConversationStorage :=
  match dspy_manager_check env with
  | Except.ok _ => Except.ok ⟨[]⟩
  | Except.error e => Except.error e

/-- The spec's wording of context construction (variant (a), full history):
the messages formatted as `"<role>: <content>"` lines, in list order, joined
by a single newline. -/
def context_spec (messages : List Message) : String :=
  String.intercalate "\n" (messages.map (fun m => m.role ++ ": " ++ m.content))

/-- A sequence of `Conversation.add_message` calls, one per `(role, content)`
pair, in list order; successive `datetime.utcnow()` readings are modelled by
incrementing the clock between calls. -/
def apply_calls (c : Conversation) (calls : List (String × String)) (t : Nat) :
    Conversation :=
  match calls with
  | [] => c
  | (r, ct) :: rest => apply_calls (c.add_message r ct t).2 rest (t + 1)

/-- The messages that a sequence of append calls constructs. -/
def calls_to_messages (calls : List (String × String)) (t : Nat) : List Message :=
  match calls with
  | [] => []
  | (r, ct) :: rest => ⟨r, ct, t⟩ :: calls_to_messages rest (t + 1)

/-- Every message stored anywhere in the store has one of the two enumerated
roles. -/
def RolesOK (s : ConversationStorage) : Prop :=
  ∀ p ∈ s.conversations, ∀ m ∈ p.2.messages,
    m.role = "user" ∨ m.role = "assistant"

/-- A reasoning call that always succeeds with a fixed answer. -/
def askConst : AskFn := fun _ _ => Except.ok "an answer"

/-- A fixed exception text for instantiating failing reasoning calls. -/
def errBoom : String → String → String := fun _ _ => "boom"

/-- An environment where `OPENAI_API_KEY` is set to the empty string. -/
def env_empty_key : String → Option String :=
  fun k => if k = "OPENAI_API_KEY" then some "" else none

/-- An environment where `OPENAI_API_KEY` is set to a non-empty value. -/
def env_with_key : String → Option String :=
  fun k => if k = "OPENAI_API_KEY" then some "sk-test" else none

/-- An environment where `OPENAI_API_KEY` is absent. -/
def env_no_key : String → Option String :=
  fun _ => none

/- ------------------------------------------------------------------ -/
/- Helper lemmas.                                                      -/
/- ------------------------------------------------------------------ -/

theorem context_parts_eq (messages : List Message) (acc : List String) :
    messages.foldl (fun acc msg => acc ++ [msg.role ++ ": " ++ msg.content]) acc
      = acc ++ messages.map (fun m => m.role ++ ": " ++ m.content) := by
  induction messages generalizing acc with
  | nil => simp
  | cons m t ih => simp [ih]

theorem create_context_eq (messages : List Message) :
    create_context_from_messages messages
      = String.intercalate "\n"
          (messages.map (fun m => m.role ++ ": " ++ m.content)) := by
  unfold create_context_from_messages
  rw [context_parts_eq]
  simp

theorem intercalate_go_eq_foldl (s : String) (as : List String) (acc : String) :
    String.intercalate.go acc s as = as.foldl (fun r x => r ++ s ++ x) acc := by
  induction as generalizing acc with
  | nil => rfl
  | cons a t ih =>
      simp only [List.foldl_cons]
      exact ih (acc ++ s ++ a)

theorem intercalate_concat (xs : List String) (y : String) :
    String.intercalate "\n" (xs ++ [y])
      = (if xs.isEmpty then "" else String.intercalate "\n" xs ++ "\n") ++ y := by
  cases xs with
  | nil => rfl
  | cons a t =>
      rw [List.cons_append,
        show String.intercalate "\n" (a :: (t ++ [y]))
          = String.intercalate.go a "\n" (t ++ [y]) from rfl,
        show String.intercalate "\n" (a :: t)
          = String.intercalate.go a "\n" t from rfl,
        intercalate_go_eq_foldl, intercalate_go_eq_foldl, List.foldl_append]
      simp

theorem isEmpty_map_eq (f : Message → String) (l : List Message) :
    (l.map f).isEmpty = l.isEmpty := by
  cases l <;> rfl

/- ------------------------------------------------------------------ -/
/- Claims.                                                             -/
/- ------------------------------------------------------------------ -/

/-- Claim C3: the context string supplied to the reasoning call is exactly the
messages formatted as `"<role>: <content>"` lines, in list order, joined by a
single newline, over the full unbounded history (every message included). -/
theorem c3_context_is_full_history (messages : List Message) :
    create_context_from_messages messages = context_spec messages := by
  unfold context_spec
  exact create_context_eq messages

/-- Claim C4 (counterexample): appending one message to a conversation that
already holds one message yields a message list of length 2, not length 1, so
"length exactly N" fails for conversations that are not initially empty. -/
theorem c4_counterexample :
    (apply_calls ⟨"x", [⟨"user", "a", 0⟩]⟩ [("user", "b")] 1).messages.length ≠ 1 := by
  decide

/-- Claim C4 (amended): after a sequence of `add_message` calls the
conversation's message list is its initial list followed by exactly one
message per call, in call order, with the i-th appended message's role and
content equal to the i-th call's arguments; hence the length is the initial
length plus N (and exactly N when the conversation started empty). -/
theorem c4_append_sequence (c : Conversation) (calls : List (String × String))
    (t : Nat) :
    (apply_calls c calls t).messages = c.messages ++ calls_to_messages calls t ∧
    (calls_to_messages calls t).map (fun m => (m.role, m.content)) = calls ∧
    (apply_calls c calls t).messages.length
      = c.messages.length + calls.length := by
  have h1 : ∀ (cs : List (String × String)) (c : Conversation) (t : Nat),
      (apply_calls c cs t).messages = c.messages ++ calls_to_messages cs t := by
    intro cs
    induction cs with
    | nil => intro c t; simp [apply_calls, calls_to_messages]
    | cons p rest ih =>
        intro c t
        cases p with
        | mk r ct =>
            simp [apply_calls, calls_to_messages, Conversation.add_message, ih]
  have h2 : ∀ (cs : List (String × String)) (t : Nat),
      (calls_to_messages cs t).map (fun m => (m.role, m.content)) = cs := by
    intro cs
    induction cs with
    | nil => intro t; rfl
    | cons p rest ih => intro t; cases p; simp [calls_to_messages, ih]
  refine ⟨h1 calls c t, h2 calls t, ?_⟩
  have hlen : (calls_to_messages calls t).length = calls.length := by
    have := congrArg List.length (h2 calls t)
    simpa using this
  rw [h1 calls c t, List.length_append, hlen]

/-- Claim C8 (counterexample): with `OPENAI_API_KEY` present but set to the
empty string, the credential is present yet `DSPyManager.__init__` still
raises (`not os.getenv(...)` uses Python truthiness, under which the empty
string is falsy), so "if the credential is present, the check does not raise"
fails. -/
theorem c8_counterexample :
    (env_empty_key "OPENAI_API_KEY").isSome = true ∧
    dspy_manager_check env_empty_key
      = Except.error "OPENAI_API_KEY environment variable is not set" ∧
    init_services env_empty_key
      = Except.error "OPENAI_API_KEY environment variable is not set" :=
  ⟨rfl, rfl, rfl⟩

/-- Claim C8 (amended): if `OPENAI_API_KEY` is absent — or present but equal
to the empty string, since the check uses Python truthiness — DSPyManager
initialization raises `ValueError` and service startup aborts with that
error; if the variable is present with a non-empty value, the credential
check does not raise. -/
theorem c8_credential_check (env : String → Option String) :
    (env "OPENAI_API_KEY" = none →
      dspy_manager_check env
          = Except.error "OPENAI_API_KEY environment variable is not set" ∧
      init_services env
          = Except.error "OPENAI_API_KEY environment variable is not set") ∧
    (∀ v, env "OPENAI_API_KEY" = some v → v ≠ "" →
      dspy_manager_check env = Except.ok () ∧
      init_services env = Except.ok ⟨[]⟩) ∧
    (env "OPENAI_API_KEY" = some "" →
      dspy_manager_check env
          = Except.error "OPENAI_API_KEY environment variable is not set") := by
  refine ⟨?_, ?_, ?_⟩
  · intro h
    constructor <;> simp [dspy_manager_check, init_services, getenv_truthy, h]
  · intro v hv hne
    have hb : v.isEmpty = false := by
      cases hbe : v.isEmpty with
      | false => rfl
      | true => exact absurd ((String.isEmpty_iff v).1 hbe) hne
    constructor <;>
      simp [dspy_manager_check, init_services, getenv_truthy, hv, hb]
  · intro h
    simp only [dspy_manager_check, h]
    rfl

theorem find?_key_filter_self (l : List (String × Conversation)) (k : String) :
    (l.filter (fun p => p.1 != k)).find? (fun p => p.1 == k) = none := by
  rw [List.find?_eq_none]
  intro x hx
  have hne := List.of_mem_filter hx
  simp only [bne_iff_ne, ne_eq] at hne
  simp [hne]

theorem find?_key_filter_ne (l : List (String × Conversation)) (k j : String)
    (h : j ≠ k) :
    (l.filter (fun p => p.1 != k)).find? (fun p => p.1 == j)
      = l.find? (fun p => p.1 == j) := by
  induction l with
  | nil => rfl
  | cons a t ih =>
      by_cases hk : a.1 = k
      · rw [List.filter_cons_of_neg (by simp [hk]), ih,
          List.find?_cons_of_neg _ (by simp [hk]; exact Ne.symm h)]
      · rw [List.filter_cons_of_pos (by simp [hk])]
        by_cases hj : a.1 = j
        · rw [List.find?_cons_of_pos _ (by simp [hj]),
            List.find?_cons_of_pos _ (by simp [hj])]
        · rw [List.find?_cons_of_neg _ (by simp [hj]),
            List.find?_cons_of_neg _ (by simp [hj]), ih]

theorem get_dictSet_self (l : List (String × Conversation)) (k : String)
    (v : Conversation) :
    ConversationStorage.get_conversation ⟨dictSet l k v⟩ k = some v := by
  unfold ConversationStorage.get_conversation dictSet
  rw [List.find?_append, find?_key_filter_self]
  simp

theorem get_conversation_mem (s : ConversationStorage) (cid : String)
    (conv : Conversation) (h : s.get_conversation cid = some conv) :
    ∃ k, (k, conv) ∈ s.conversations := by
  unfold ConversationStorage.get_conversation at h
  cases hf : s.conversations.find? (fun p => p.1 == cid) with
  | none => rw [hf] at h; cases h
  | some x =>
      rw [hf] at h
      have hx : x ∈ s.conversations := List.mem_of_find?_eq_some hf
      have hxc : x.2 = conv := by simpa using h
      refine ⟨x.1, ?_⟩
      rw [← hxc]
      exact hx

theorem get_isSome_iff_any (s : ConversationStorage) (cid : String) :
    (s.get_conversation cid).isSome = true
      ↔ s.conversations.any (fun p => p.1 == cid) = true := by
  unfold ConversationStorage.get_conversation
  rw [List.any_eq_true]
  cases hf : s.conversations.find? (fun p => p.1 == cid) with
  | none =>
      rw [List.find?_eq_none] at hf
      simp only [Option.map_none', Option.isSome_none]
      constructor
      · intro h; cases h
      · rintro ⟨x, hx, hpx⟩
        exact absurd hpx (hf x hx)
  | some x =>
      simp only [Option.map_some', Option.isSome_some]
      have hpx := List.find?_some hf
      exact ⟨fun _ => ⟨x, List.mem_of_find?_eq_some hf, hpx⟩, fun _ => by trivial⟩

theorem find?_key_of_mem (l : List (String × Conversation)) (cid : String)
    (c : Conversation) (hnodup : (l.map Prod.fst).Nodup)
    (hmem : (cid, c) ∈ l) :
    l.find? (fun p => p.1 == cid) = some (cid, c) := by
  induction l with
  | nil => cases hmem
  | cons a t ih =>
      rw [List.map_cons, List.nodup_cons] at hnodup
      rcases List.mem_cons.1 hmem with heq | hmem2
      · rw [← heq]
        rw [List.find?_cons_of_pos _ (by simp)]
      · have ha : (a.1 == cid) = false := by
          have hcid : cid ∈ t.map Prod.fst :=
            List.mem_map.2 ⟨(cid, c), hmem2, rfl⟩
          have hane : a.1 ≠ cid := fun hh => hnodup.1 (by rw [hh]; exact hcid)
          simp [hane]
        rw [List.find?_cons_of_neg _ (by simp [ha])]
        exact ih hnodup.2 hmem2

theorem mem_dictSet (l : List (String × Conversation)) (k : String)
    (v : Conversation) (p : String × Conversation) (hp : p ∈ dictSet l k v) :
    p ∈ l ∨ p = (k, v) := by
  unfold dictSet at hp
  rcases List.mem_append.1 hp with h | h
  · exact Or.inl (List.mem_of_mem_filter h)
  · right
    simpa using h

theorem apology_ne_empty (e : String) :
    "I apologize, but I encountered an error: " ++ e ≠ "" := by
  intro h
  have hlen := congrArg String.length h
  rw [String.length_append] at hlen
  have hpos : 0 < ("I apologize, but I encountered an error: ").length := by decide
  rw [show ("" : String).length = 0 from rfl] at hlen
  omega

theorem getLast?_append_pair (l : List Message) (a b : Message) :
    (l ++ [a, b]).getLast? = some b := by
  rw [show l ++ [a, b] = (l ++ [a]) ++ [b] by simp]
  exact List.getLast?_concat _

theorem chat_success (ask : AskFn) (s : ConversationStorage) (req : ChatRequest)
    (fid : String) (t1 t2 : Nat) (conv : Conversation) (s1 : ConversationStorage)
    (hres : resolve_conversation s req fid = some (conv, s1))
    (hget : s1.get_conversation conv.id = some conv) :
    chat ask s req fid t1 t2
      = (Except.ok
          ⟨conv.id,
            process_message ask (conv.messages ++ [⟨"user", req.message, t1⟩])
              req.message,
            conv.messages
              ++ [⟨"user", req.message, t1⟩,
                ⟨"assistant",
                  process_message ask
                    (conv.messages ++ [⟨"user", req.message, t1⟩]) req.message,
                  t2⟩]⟩,
        ⟨dictSet
            (dictSet s1.conversations conv.id
              ⟨conv.id, conv.messages ++ [⟨"user", req.message, t1⟩]⟩)
            conv.id
            ⟨conv.id,
              conv.messages
                ++ [⟨"user", req.message, t1⟩,
                  ⟨"assistant",
                    process_message ask
                      (conv.messages ++ [⟨"user", req.message, t1⟩])
                      req.message,
                    t2⟩]⟩⟩) := by
  unfold chat
  rw [hres]
  simp only [ConversationStorage.add_message, hget, Conversation.add_message,
    get_dictSet_self, Option.getD_some, List.append_assoc,
    List.singleton_append, List.cons_append, List.nil_append]

/-- Claim C2 (counterexample): the empty-string conversation id is absent
from the store, yet `if request.conversation_id:` treats it as falsy and
takes the create branch: the turn returns the success shape and the store is
mutated, refuting the universal 404/no-mutation claim at this input. -/
theorem c2_counterexample :
    ConversationStorage.get_conversation ⟨[]⟩ "" = none ∧
    (chat askConst ⟨[]⟩ ⟨some "", "hi"⟩ "f1" 0 1).1
      = Except.ok ⟨"f1", "an answer",
          [⟨"user", "hi", 0⟩, ⟨"assistant", "an answer", 1⟩]⟩ ∧
    (chat askConst ⟨[]⟩ ⟨some "", "hi"⟩ "f1" 0 1).2
      ≠ (⟨[]⟩ : ConversationStorage) :=
  ⟨rfl, rfl, by decide⟩

/-- Claim C2 (amended): a chat turn naming a non-empty conversation id that
is not in the store returns the 404 not-found signal and leaves the store
exactly as it was: no conversation is created and no message is appended
anywhere.  The empty-string id is falsy under Python truthiness and takes
the create-new-conversation branch instead (see the counterexample). -/
theorem c2_unknown_id_404 (ask : AskFn) (s : ConversationStorage)
    (cid fid m : String) (t1 t2 : Nat) (hne : cid ≠ "")
    (hmiss : s.get_conversation cid = none) :
    chat ask s ⟨some cid, m⟩ fid t1 t2 = (Except.error 404, s) := by
  have hb : cid.isEmpty = false := by
    cases hbe : cid.isEmpty with
    | false => rfl
    | true => exact absurd ((String.isEmpty_iff cid).1 hbe) hne
  simp [chat, resolve_conversation, hmiss, hb]

/-- Witness for C2 at a concrete empty store and unknown non-empty id. -/
theorem c2_unknown_id_404_witness :
    chat askConst ⟨[]⟩ ⟨some "missing", "hi"⟩ "f0" 0 1
      = (Except.error 404, (⟨[]⟩ : ConversationStorage)) :=
  c2_unknown_id_404 askConst ⟨[]⟩ "missing" "f0" "hi" 0 1 (by decide) rfl

/-- Claim C5: `create_conversation` always succeeds (it is total): it returns
a conversation with an empty message list whose id is the freshly generated
identifier (freshness of the external uuid is the hypothesis), and registers
it so that an immediate get with that id returns that same conversation. -/
theorem c5_create_conversation (s : ConversationStorage) (fid : String)
    (hfresh : s.get_conversation fid = none) :
    (s.create_conversation fid).1.messages = [] ∧
    (s.create_conversation fid).1.id = fid ∧
    s.get_conversation (s.create_conversation fid).1.id = none ∧
    (s.create_conversation fid).2.get_conversation (s.create_conversation fid).1.id
      = some (s.create_conversation fid).1 := by
  refine ⟨rfl, rfl, hfresh, ?_⟩
  exact get_dictSet_self s.conversations fid ⟨fid, []⟩

/-- Witness for C5 at a concrete empty store. -/
theorem c5_create_conversation_witness :
    (ConversationStorage.create_conversation ⟨[]⟩ "a").1.messages = [] ∧
    (ConversationStorage.create_conversation ⟨[]⟩ "a").1.id = "a" ∧
    ConversationStorage.get_conversation ⟨[]⟩
        (ConversationStorage.create_conversation ⟨[]⟩ "a").1.id = none ∧
    (ConversationStorage.create_conversation ⟨[]⟩ "a").2.get_conversation
        (ConversationStorage.create_conversation ⟨[]⟩ "a").1.id
      = some (ConversationStorage.create_conversation ⟨[]⟩ "a").1 :=
  c5_create_conversation ⟨[]⟩ "a" rfl

/-- Claim C6: `delete_conversation` returns `true` exactly when the id was
present before the call, a subsequent get of that id returns the not-found
signal, and every other id's lookup is unchanged (exactly that one entry is
removed when present). -/
theorem c6_delete_conversation (s : ConversationStorage) (cid : String) :
    ((s.delete_conversation cid).1 = true
        ↔ (s.get_conversation cid).isSome = true) ∧
    (s.delete_conversation cid).2.get_conversation cid = none ∧
    (∀ j, j ≠ cid →
      (s.delete_conversation cid).2.get_conversation j
        = s.get_conversation j) := by
  unfold ConversationStorage.delete_conversation
  by_cases hin : s.conversations.any (fun p => p.1 == cid) = true
  · rw [if_pos hin]
    refine ⟨by simp [get_isSome_iff_any, hin], ?_, ?_⟩
    · unfold ConversationStorage.get_conversation
      rw [show (⟨s.conversations.filter (fun p => p.1 != cid)⟩ :
          ConversationStorage).conversations
        = s.conversations.filter (fun p => p.1 != cid) from rfl]
      rw [find?_key_filter_self]
      rfl
    · intro j hj
      unfold ConversationStorage.get_conversation
      rw [show (⟨s.conversations.filter (fun p => p.1 != cid)⟩ :
          ConversationStorage).conversations
        = s.conversations.filter (fun p => p.1 != cid) from rfl]
      rw [find?_key_filter_ne s.conversations cid j hj]
  · rw [if_neg hin]
    have hnone : s.get_conversation cid = none := by
      cases hg : s.get_conversation cid with
      | none => rfl
      | some x =>
          exact absurd ((get_isSome_iff_any s cid).1 (by rw [hg]; rfl)) hin
    refine ⟨by simp [hnone], hnone, fun j hj => rfl⟩

/-- Witness for C6 at a concrete one-entry store, checked at the present id
and at an absent other id. -/
theorem c6_delete_conversation_witness :
    ((ConversationStorage.delete_conversation ⟨[("a", ⟨"a", []⟩)]⟩ "a").1 = true
        ↔ (ConversationStorage.get_conversation
            ⟨[("a", ⟨"a", []⟩)]⟩ "a").isSome = true) ∧
    (ConversationStorage.delete_conversation
        ⟨[("a", ⟨"a", []⟩)]⟩ "a").2.get_conversation "a" = none ∧
    (ConversationStorage.delete_conversation
        ⟨[("a", ⟨"a", []⟩)]⟩ "a").2.get_conversation "b"
      = ConversationStorage.get_conversation ⟨[("a", ⟨"a", []⟩)]⟩ "b" := by
  have h := c6_delete_conversation ⟨[("a", ⟨"a", []⟩)]⟩ "a"
  exact ⟨h.1, h.2.1, h.2.2 "b" (by decide)⟩

/-- Claim C7: under the store invariant that ids are unique,
`get_conversation` returns exactly the stored conversation for a present id
and the not-found signal (`none`) for an absent id; it is a total function,
so a missing id can never raise an error. -/
theorem c7_get_conversation (s : ConversationStorage) (cid : String)
    (c : Conversation)
    (hnodup : (s.conversations.map Prod.fst).Nodup) :
    ((cid, c) ∈ s.conversations ↔ s.get_conversation cid = some c) ∧
    (s.get_conversation cid = none ↔ ∀ c2, (cid, c2) ∉ s.conversations) := by
  constructor
  · constructor
    · intro hmem
      unfold ConversationStorage.get_conversation
      rw [find?_key_of_mem s.conversations cid c hnodup hmem]
      rfl
    · intro hget
      unfold ConversationStorage.get_conversation at hget
      cases hf : s.conversations.find? (fun p => p.1 == cid) with
      | none => rw [hf] at hget; cases hget
      | some x =>
          rw [hf] at hget
          have hx : x ∈ s.conversations := List.mem_of_find?_eq_some hf
          have h1 : x.1 = cid := by simpa using List.find?_some hf
          have h2 : x.2 = c := by simpa using hget
          have hxx : (cid, c) = x := by rw [← h1, ← h2]
          rw [hxx]
          exact hx
  · unfold ConversationStorage.get_conversation
    constructor
    · intro hnone c2 hmem
      have hfn : s.conversations.find? (fun p => p.1 == cid) = none := by
        cases hf : s.conversations.find? (fun p => p.1 == cid) with
        | none => rfl
        | some x => rw [hf] at hnone; cases hnone
      rw [List.find?_eq_none] at hfn
      exact (hfn (cid, c2) hmem) (by simp)
    · intro hall
      have hfn : s.conversations.find? (fun p => p.1 == cid) = none := by
        rw [List.find?_eq_none]
        intro x hx hpx
        have h1 : x.1 = cid := by simpa using hpx
        have hmem : (cid, x.2) ∈ s.conversations := by rw [← h1]; exact hx
        exact hall x.2 hmem
      rw [hfn]
      rfl

/-- Witness for C7 at a concrete one-entry store. -/
theorem c7_get_conversation_witness :
    (("a", (⟨"a", []⟩ : Conversation))
        ∈ (⟨[("a", ⟨"a", []⟩)]⟩ : ConversationStorage).conversations
      ↔ ConversationStorage.get_conversation ⟨[("a", ⟨"a", []⟩)]⟩ "a"
          = some ⟨"a", []⟩) ∧
    (ConversationStorage.get_conversation ⟨[("a", ⟨"a", []⟩)]⟩ "a" = none
      ↔ ∀ c2, ("a", c2)
          ∉ (⟨[("a", ⟨"a", []⟩)]⟩ : ConversationStorage).conversations) :=
  c7_get_conversation ⟨[("a", ⟨"a", []⟩)]⟩ "a" ⟨"a", []⟩ (by decide)

/-- Witness for C8: the amended theorem applied to a concrete absent-key
environment and a concrete non-empty-key environment. -/
theorem c8_credential_check_witness :
    init_services env_no_key
        = Except.error "OPENAI_API_KEY environment variable is not set" ∧
    init_services env_with_key = Except.ok ⟨[]⟩ :=
  ⟨((c8_credential_check env_no_key).1 rfl).2,
    ((c8_credential_check env_with_key).2.1 "sk-test" rfl (by decide)).2⟩

/-- Claim C1: when the reasoning call raises (any exception text, for any
conversation and user message), the chat turn does not propagate the failure:
it returns the normal success shape whose answer is a non-empty string
beginning with the apology text, and an assistant message carrying that
string is still appended to the stored conversation. -/
theorem c1_ask_failure_swallowed (err : String → String → String)
    (s : ConversationStorage) (req : ChatRequest) (fid : String) (t1 t2 : Nat)
    (conv : Conversation) (s1 : ConversationStorage)
    (hres : resolve_conversation s req fid = some (conv, s1))
    (hget : s1.get_conversation conv.id = some conv) :
    ∃ tr : TurnResult,
      (chat (fun c q => Except.error (err c q)) s req fid t1 t2).1
        = Except.ok tr ∧
      (∃ rest, tr.response = "I apologize, but I encountered an error: " ++ rest) ∧
      tr.response ≠ "" ∧
      tr.history.getLast? = some ⟨"assistant", tr.response, t2⟩ ∧
      (∃ convEnd : Conversation,
        ((chat (fun c q => Except.error (err c q)) s req fid t1 t2).2).get_conversation
            conv.id = some convEnd ∧
        convEnd.messages.getLast? = some ⟨"assistant", tr.response, t2⟩) := by
  have h := chat_success (fun c q => Except.error (err c q)) s req fid t1 t2
    conv s1 hres hget
  rw [h]
  have hresp : process_message (fun c q => Except.error (err c q))
      (conv.messages ++ [⟨"user", req.message, t1⟩]) req.message
      = "I apologize, but I encountered an error: "
        ++ err (create_context_from_messages
            (conv.messages ++ [⟨"user", req.message, t1⟩])) req.message := rfl
  refine ⟨_, rfl, ⟨_, hresp⟩, ?_, getLast?_append_pair _ _ _,
    ⟨_, get_dictSet_self _ _ _, getLast?_append_pair _ _ _⟩⟩
  show "I apologize, but I encountered an error: "
      ++ err (create_context_from_messages
          (conv.messages ++ [⟨"user", req.message, t1⟩])) req.message ≠ ""
  exact apology_ne_empty _

/-- Witness for C1 at a concrete brand-new conversation with a reasoning call
that always raises. -/
theorem c1_ask_failure_swallowed_witness :
    ∃ tr : TurnResult,
      (chat (fun c q => Except.error (errBoom c q)) ⟨[]⟩ ⟨none, "hi"⟩ "c1" 0 1).1
        = Except.ok tr ∧
      (∃ rest, tr.response = "I apologize, but I encountered an error: " ++ rest) ∧
      tr.response ≠ "" ∧
      tr.history.getLast? = some ⟨"assistant", tr.response, 1⟩ ∧
      (∃ convEnd : Conversation,
        ((chat (fun c q => Except.error (errBoom c q)) ⟨[]⟩ ⟨none, "hi"⟩ "c1" 0 1).2).get_conversation
            (⟨"c1", []⟩ : Conversation).id = some convEnd ∧
        convEnd.messages.getLast? = some ⟨"assistant", tr.response, 1⟩) :=
  c1_ask_failure_swallowed errBoom ⟨[]⟩ ⟨none, "hi"⟩ "c1" 0 1 ⟨"c1", []⟩
    ⟨[("c1", ⟨"c1", []⟩)]⟩ (by decide) (by decide)

/-- Claim C9 (counterexample): the store's `add_message` does not validate
the role: invoking it with role `"system"` stores a message whose role is
neither `"user"` nor `"assistant"`, so the claim that no store operation can
produce such a message is false. -/
theorem c9_counterexample :
    (ConversationStorage.add_message
        ⟨[("a", ⟨"a", []⟩)]⟩ "a" "system" "x" 0).2.get_conversation "a"
      = some ⟨"a", [⟨"system", "x", 0⟩]⟩ ∧
    ¬ ("system" = "user" ∨ "system" = "assistant") := by
  exact ⟨by decide, by decide⟩

theorem roles_ok_add_message (s : ConversationStorage)
    (cid role content : String) (t : Nat) (hs : RolesOK s)
    (hrole : role = "user" ∨ role = "assistant") :
    RolesOK (s.add_message cid role content t).2 := by
  unfold ConversationStorage.add_message
  cases hg : s.get_conversation cid with
  | none => exact hs
  | some conversation =>
      intro p hp m hm
      rcases mem_dictSet _ _ _ p hp with hpl | hpe
      · exact hs p hpl m hm
      · rcases get_conversation_mem s cid conversation hg with ⟨k, hk⟩
        subst hpe
        have hm2 : m ∈ conversation.messages ++ [⟨role, content, t⟩] := hm
        rcases List.mem_append.1 hm2 with hma | hmb
        · exact hs (k, conversation) hk m hma
        · have hmm : m = ⟨role, content, t⟩ := by simpa using hmb
          rw [hmm]
          exact hrole

theorem resolve_some_store (s : ConversationStorage) (req : ChatRequest)
    (fid : String) (conv : Conversation) (s1 : ConversationStorage)
    (h : resolve_conversation s req fid = some (conv, s1)) :
    (conv, s1) = s.create_conversation fid ∨ s1 = s := by
  unfold resolve_conversation at h
  cases hcid : req.conversation_id with
  | none =>
      rw [hcid] at h
      left
      have h2 : some (s.create_conversation fid) = some (conv, s1) := h
      injection h2 with h3
      exact h3.symm
  | some cid =>
      rw [hcid] at h
      have h2 : (if cid.isEmpty then some (s.create_conversation fid)
          else match s.get_conversation cid with
            | none => (none : Option (Conversation × ConversationStorage))
            | some conversation => some (conversation, s))
          = some (conv, s1) := h
      by_cases he : cid.isEmpty = true
      · rw [if_pos he] at h2
        left
        injection h2 with h3
        exact h3.symm
      · rw [if_neg he] at h2
        right
        cases hg : s.get_conversation cid with
        | none => rw [hg] at h2; cases h2
        | some c2 =>
            rw [hg] at h2
            injection h2 with h3
            exact congrArg Prod.snd h3.symm

theorem roles_ok_create (s : ConversationStorage) (fid : String)
    (hs : RolesOK s) : RolesOK (s.create_conversation fid).2 := by
  intro p hp m hm
  rcases mem_dictSet _ _ _ p hp with hpl | hpe
  · exact hs p hpl m hm
  · subst hpe
    exact absurd hm (List.not_mem_nil m)

/-- Claim C9 (amended): the store itself does not enforce the role
enumeration (`add_message` stores any role string verbatim, see the
counterexample), but the service's chat flow only ever appends roles
`"user"` and `"assistant"`, so every chat turn preserves the invariant that
every stored message's role is one of the two enumerated values. -/
theorem c9_roles_preserved (ask : AskFn) (s : ConversationStorage)
    (req : ChatRequest) (fid : String) (t1 t2 : Nat) (hs : RolesOK s) :
    RolesOK (chat ask s req fid t1 t2).2 := by
  unfold chat
  cases hres : resolve_conversation s req fid with
  | none => exact hs
  | some cs =>
      have hs1 : RolesOK cs.2 := by
        obtain ⟨conv, s1⟩ := cs
        rcases resolve_some_store s req fid conv s1 hres with hcr | hstore
        · have h2 : s1 = (s.create_conversation fid).2 :=
            congrArg Prod.snd hcr
          rw [h2]
          exact roles_ok_create s fid hs
        · rw [hstore]
          exact hs
      exact roles_ok_add_message _ _ _ _ _
        (roles_ok_add_message _ _ _ _ _ hs1 (Or.inl rfl)) (Or.inr rfl)

/-- Witness for C9 at a concrete empty store and a brand-new conversation. -/
theorem c9_roles_preserved_witness :
    RolesOK (chat askConst ⟨[]⟩ ⟨none, "hi"⟩ "c9" 0 1).2 :=
  c9_roles_preserved askConst ⟨[]⟩ ⟨none, "hi"⟩ "c9" 0 1
    (fun p hp => absurd hp (List.not_mem_nil p))

/-- Claim C10: the user message is appended before the context is built, so
the message list handed to the reasoning step is the prior history plus the
current user message, and the context string it formats ends with the line
`"user: <content>"`; in particular the context is non-empty even on a
brand-new conversation. -/
theorem c10_context_contains_user_message (ask : AskFn)
    (s : ConversationStorage) (req : ChatRequest) (fid : String) (t1 t2 : Nat)
    (conv : Conversation) (s1 : ConversationStorage)
    (hres : resolve_conversation s req fid = some (conv, s1))
    (hget : s1.get_conversation conv.id = some conv) :
    ∃ tr : TurnResult,
      (chat ask s req fid t1 t2).1 = Except.ok tr ∧
      tr.response
        = process_message ask (conv.messages ++ [⟨"user", req.message, t1⟩])
            req.message ∧
      create_context_from_messages
          (conv.messages ++ [⟨"user", req.message, t1⟩])
        = (if conv.messages.isEmpty then ""
            else create_context_from_messages conv.messages ++ "\n")
          ++ ("user: " ++ req.message) ∧
      create_context_from_messages
          (conv.messages ++ [⟨"user", req.message, t1⟩]) ≠ "" := by
  have h := chat_success ask s req fid t1 t2 conv s1 hres hget
  have hctx : create_context_from_messages
      (conv.messages ++ [⟨"user", req.message, t1⟩])
      = (if conv.messages.isEmpty then ""
          else create_context_from_messages conv.messages ++ "\n")
        ++ ("user: " ++ req.message) := by
    rw [create_context_eq]
    simp only [List.map_append, List.map_cons, List.map_nil]
    rw [intercalate_concat, isEmpty_map_eq, ← create_context_eq]
    rfl
  rw [h]
  refine ⟨_, rfl, rfl, hctx, ?_⟩
  rw [hctx]
  intro hemp
  have hlen := congrArg String.length hemp
  rw [String.length_append, String.length_append] at hlen
  rw [show ("user: ").length = 6 from by decide] at hlen
  rw [show ("" : String).length = 0 from rfl] at hlen
  omega

/-- Witness for C10 at a concrete brand-new conversation. -/
theorem c10_context_contains_user_message_witness :
    ∃ tr : TurnResult,
      (chat askConst ⟨[]⟩ ⟨none, "hi"⟩ "d0" 0 1).1 = Except.ok tr ∧
      tr.response
        = process_message askConst
            ((⟨"d0", []⟩ : Conversation).messages ++ [⟨"user", "hi", 0⟩]) "hi" ∧
      create_context_from_messages
          ((⟨"d0", []⟩ : Conversation).messages ++ [⟨"user", "hi", 0⟩])
        = (if (⟨"d0", []⟩ : Conversation).messages.isEmpty then ""
            else create_context_from_messages
                (⟨"d0", []⟩ : Conversation).messages ++ "\n")
          ++ ("user: " ++ "hi") ∧
      create_context_from_messages
          ((⟨"d0", []⟩ : Conversation).messages ++ [⟨"user", "hi", 0⟩]) ≠ "" :=
  c10_context_contains_user_message askConst ⟨[]⟩ ⟨none, "hi"⟩ "d0" 0 1
    ⟨"d0", []⟩ ⟨[("d0", ⟨"d0", []⟩)]⟩ (by decide) (by decide)

end DspyChat
